import Mathlib

/-!
Verification of the service layer of the library-recommendation-system
front end: the API adapter (`src/services/api.ts`) and the signup
confirmation form (`ConfirmSignup`).

The embedding is shallow: the JSON values a `fetch` response parses to are
an inductive `Json` type; each HTTP-backed operation is a function from the
observed `HttpResponse` (status code plus parsed body, i.e. the value
`parseApiJson` produces) to `Except String _`, where `Except.error`
models a thrown `Error` with the given message.  Timer-based mocks are
functions of the resolution-time clock reading (`Date.now()` in
milliseconds, a `Nat`) so that time dependence is explicit.
-/

set_option autoImplicit false

/-- A parsed JSON value, as returned by `parseApiJson` in `api.ts`.  Object
fields are an association list (JavaScript object keys are unique, but the
model does not need that assumption). -/
inductive Json where
  | null
  | bool (b : Bool)
  | num (n : Int)
  | str (s : String)
  | arr (items : List Json)
  | obj (fields : List (String × Json))

/-- First-match key lookup in a JavaScript object: `fields[key]`, and
`jlookup fields key ≠ none` is the JavaScript test `key in fields`. -/
def jlookup : List (String × Json) → String → Option Json
  | [], _ => none
  | (k, v) :: rest, key => if k == key then some v else jlookup rest key

/-- The constant `CURRENT_USER_ID` of `api.ts` (line 21). -/
def CURRENT_USER_ID : String := "1"

/-- An HTTP response as the adapter observes it: the status code and the
parsed JSON body (the value `parseApiJson` returns for it). -/
structure HttpResponse where
  status : Nat
  body : Json

/-- The `Response.ok` flag: status in the 2xx range. -/
def respOk (status : Nat) : Bool := decide (200 ≤ status ∧ status < 300)

/-- Body-shape dispatch of `getBooks` (api.ts lines 54-64): a bare array is
returned as is; otherwise an object is probed for an `Items` key and then a
`books` key (`'Items' in data` tests key presence, and the matching field
value is returned unchecked); anything else yields the empty list. -/
def getBooksData (data : Json) : Json :=
  match data with
  | .arr xs => .arr xs
  | .obj fields =>
    match jlookup fields "Items" with
    | some v => v
    | none =>
      match jlookup fields "books" with
      | some v => v
      | none => .arr []
  | _ => .arr []

/-- Model of `getBooks` (api.ts lines 47-65): throw on a non-2xx response,
otherwise unwrap the parsed body. -/
def getBooks (r : HttpResponse) : Except String Json :=
  if !respOk r.status then .error "Failed to fetch books"
  else .ok (getBooksData r.body)

/-- Model of `getBook` (api.ts lines 68-80): resolve to `null` on 404,
throw on any other non-2xx status, otherwise return the parsed body. -/
def getBook (r : HttpResponse) : Except String Json :=
  if r.status == 404 then .ok .null
  else if !respOk r.status then .error "Failed to fetch book"
  else .ok r.body

/-- Body-shape dispatch of `getReadingLists` (api.ts lines 170-180): like
`getBooksData` but the second probed key is `readingLists`. -/
def getReadingListsData (data : Json) : Json :=
  match data with
  | .arr xs => .arr xs
  | .obj fields =>
    match jlookup fields "Items" with
    | some v => v
    | none =>
      match jlookup fields "readingLists" with
      | some v => v
      | none => .arr []
  | _ => .arr []

/-- Model of `getReadingLists` (api.ts lines 163-181): throw on a non-2xx
response, otherwise unwrap the parsed body. -/
def getReadingLists (r : HttpResponse) : Except String Json :=
  if !respOk r.status then .error "Failed to fetch reading lists"
  else .ok (getReadingListsData r.body)

/-- JavaScript object-spread update (spread `fields`, then assign `v` to
`key`): the value at `key` becomes `v`; every other field is kept.
JavaScript object keys are unique, so replacing the first binding of `key`
(or appending one) captures the spread. -/
def objSet : List (String × Json) → String → Json → List (String × Json)
  | [], key, v => [(key, v)]
  | (k, w) :: rest, key, v =>
    if k == key then (key, v) :: rest else (k, w) :: objSet rest key v

/-- The request payload `createReadingList` serializes (api.ts lines
187-190): the caller input spread with `userId` forced to
`CURRENT_USER_ID`. -/
def createReadingListPayload (list : List (String × Json)) :
    List (String × Json) :=
  objSet list "userId" (.str CURRENT_USER_ID)

/-- Response handling of `createReadingList` (api.ts lines 192-202). -/
def createReadingList (r : HttpResponse) : Except String Json :=
  if !respOk r.status then .error "Failed to create reading list"
  else .ok r.body

/-- The request payload `updateReadingList` serializes (api.ts lines
210-213): the caller input spread with `userId` forced to
`CURRENT_USER_ID`. -/
def updateReadingListPayload (list : List (String × Json)) :
    List (String × Json) :=
  objSet list "userId" (.str CURRENT_USER_ID)

/-- Response handling of `updateReadingList` (api.ts lines 215-227). -/
def updateReadingList (r : HttpResponse) : Except String Json :=
  if !respOk r.status then .error "Failed to update reading list"
  else .ok r.body

/-- Model of `deleteReadingList` (api.ts lines 231-249): throws when the
response is not ok and the status is not 204, otherwise resolves with no
value. -/
def deleteReadingList (r : HttpResponse) : Except String Unit :=
  if !respOk r.status && r.status != 204 then
    .error "Failed to delete reading list"
  else .ok ()

/-- The `Book` entity of the data model. -/
structure Book where
  id : String
  title : String
  author : String
  genre : String
  description : String
  coverImage : String
  rating : ℚ
  publishedYear : Nat
  isbn : String
  deriving DecidableEq

/-- The caller input of `createBook`: a `Book` without its `id`. -/
structure BookInput where
  title : String
  author : String
  genre : String
  description : String
  coverImage : String
  rating : ℚ
  publishedYear : Nat
  isbn : String
  deriving DecidableEq

/-- Model of the mock `createBook` (api.ts lines 89-99): the input spread
into a new record whose `id` is `Date.now().toString()` evaluated when the
timer fires; `now` is that clock reading in milliseconds. -/
def createBook (now : Nat) (book : BookInput) : Book :=
  { id := toString now
    title := book.title
    author := book.author
    genre := book.genre
    description := book.description
    coverImage := book.coverImage
    rating := book.rating
    publishedYear := book.publishedYear
    isbn := book.isbn }

/-- The `Recommendation` entity of the data model. -/
structure Recommendation where
  id : String
  bookId : String
  reason : String
  confidence : ℚ
  deriving DecidableEq

/-- Model of the mock `getRecommendations` (api.ts lines 127-149): the
hard-coded payload resolved after the fixed delay; `_now` is the clock
reading at resolution time, which the payload never consults. -/
def getRecommendations (_now : Nat) : List Recommendation :=
  [ { id := "1"
      bookId := "1"
      reason := "Based on your interest in philosophical fiction, this book explores themes of choice and regret."
      confidence := 92 / 100 }
  , { id := "2"
      bookId := "2"
      reason := "If you enjoy science-based thrillers, this space adventure combines humor with hard science."
      confidence := 88 / 100 } ]

/-- The `Review` entity of the data model. -/
structure Review where
  id : String
  bookId : String
  userId : String
  rating : Nat
  comment : String
  createdAt : String
  deriving DecidableEq

/-- The caller input of `createReview`: a `Review` without `id` and
`createdAt`. -/
structure ReviewInput where
  bookId : String
  userId : String
  rating : Nat
  comment : String
  deriving DecidableEq

/-- Model of the mock `getReviews` (api.ts lines 255-271): the payload
resolved after the fixed delay; its single review echoes the `bookId`
argument, and `_now`, the clock reading at resolution time, is never
consulted. -/
def getReviews (_now : Nat) (bookId : String) : List Review :=
  [ { id := "1"
      bookId := bookId
      userId := "1"
      rating := 5
      comment := "Absolutely loved this book! A must-read."
      createdAt := "2024-11-01T10:00:00Z" } ]

/-- Model of the mock `createReview` (api.ts lines 273-284): the input
spread into a new record whose `id` is `Date.now().toString()` and whose
`createdAt` is `new Date().toISOString()`, both evaluated when the timer
fires; `now` is that clock reading in milliseconds and `nowIso` its
ISO-8601 rendering. -/
def createReview (now : Nat) (nowIso : String) (review : ReviewInput) :
    Review :=
  { id := toString now
    bookId := review.bookId
    userId := review.userId
    rating := review.rating
    comment := review.comment
    createdAt := nowIso }

/-- The `errors` state of the `ConfirmSignup` component: an optional
message per field. -/
structure FormErrors where
  email : Option String
  code : Option String
  deriving DecidableEq

/-- Modelled from the spec: `validateRequired` is imported from
src/utils/validation, which is not among the sources; the spec says
required validation rejects empty values. -/
def validateRequired (s : String) : Bool := !s.isEmpty

/-- Modelled from the spec: `validateEmail` is imported from
src/utils/validation, which is not among the sources; the spec says
malformed emails are rejected, modelled as one `@` separating a nonempty
local part from a nonempty domain containing a dot. -/
def validateEmail (s : String) : Bool :=
  match s.splitOn "@" with
  | [name, domain] =>
    !name.isEmpty && !domain.isEmpty && decide (2 ≤ (domain.splitOn ".").length)
  | _ => false

/-- Model of `validate` in `ConfirmSignup` (lines 307-322), parameterised
over the two validators `vReq` and `vEmail` (the imported
`validateRequired` and `validateEmail`): returns the `newErrors` record it
stores and the boolean result (`Object.keys(newErrors).length === 0`,
i.e. no field error was assigned). -/
def validate (vReq vEmail : String → Bool) (email code : String) :
    FormErrors × Bool :=
  let emailErr : Option String :=
    if !vReq email then some "Email is required"
    else if !vEmail email then some "Invalid email format"
    else none
  let codeErr : Option String :=
    if !vReq code then some "Verification code is required"
    else none
  ({ email := emailErr, code := codeErr }, emailErr.isNone && codeErr.isNone)

/-- Model of `handleConfirm` in `ConfirmSignup` (lines 324-341): the error
state `validate` stores, and the `confirmSignUp` call — `some (username,
confirmationCode)` when validation passes, `none` when the handler returns
early without calling the identity provider. -/
def handleConfirm (vReq vEmail : String → Bool) (email code : String) :
    FormErrors × Option (String × String) :=
  let v := validate vReq vEmail email code
  (v.1, if v.2 then some (email, code) else none)

/-- Model of `handleResend` in `ConfirmSignup` (lines 343-363): the first
component is the error state written by `setErrors` (`none` when the
handler leaves the state untouched — note `setErrors` replaces the whole
record, so the `code` field comes back empty), the second the
`resendSignUpCode` call with its `username` argument, `none` when no resend
happens. -/
def handleResend (vReq vEmail : String → Bool) (email : String) :
    Option FormErrors × Option String :=
  if !vReq email then
    (some { email := some "Email is required", code := none }, none)
  else if !vEmail email then
    (some { email := some "Invalid email format", code := none }, none)
  else
    (none, some email)

/-- Object-spread update always makes `key` map to `v`. -/
theorem jlookup_objSet (fields : List (String × Json)) (key : String)
    (v : Json) : jlookup (objSet fields key v) key = some v := by
  induction fields with
  | nil => simp [objSet, jlookup]
  | cons p rest ih =>
    obtain ⟨k, w⟩ := p
    by_cases hk : (k == key) = true
    · simp [objSet, hk, jlookup]
    · simp [objSet, hk, jlookup, ih]

/-- Claim C6: the JSON body sent by `createReadingList` and
`updateReadingList` always carries `userId` equal to the constant
`CURRENT_USER_ID`, which is the string "1", whatever `userId` the caller
supplied. -/
theorem readingList_payload_forces_userId (list : List (String × Json)) :
    jlookup (createReadingListPayload list) "userId" =
      some (Json.str CURRENT_USER_ID) ∧
    jlookup (updateReadingListPayload list) "userId" =
      some (Json.str CURRENT_USER_ID) ∧
    CURRENT_USER_ID = "1" :=
  ⟨jlookup_objSet list "userId" (Json.str CURRENT_USER_ID),
   jlookup_objSet list "userId" (Json.str CURRENT_USER_ID), rfl⟩

/-- Claim C9: both mock creation functions stamp the fabricated entity with
the resolution-time clock reading, rendered as a decimal string, as its
`id`. -/
theorem mock_created_id_is_timestamp (now : Nat) (book : BookInput)
    (nowIso : String) (review : ReviewInput) :
    (createBook now book).id = toString now ∧
    (createReview now nowIso review).id = toString now :=
  ⟨rfl, rfl⟩

/-- Claim C10: every recommendation in the mock payload carries a
confidence score within the closed unit interval. -/
theorem recommendation_confidence_in_unit_interval (now : Nat)
    (rec : Recommendation) (h : rec ∈ getRecommendations now) :
    0 ≤ rec.confidence ∧ rec.confidence ≤ 1 := by
  simp only [getRecommendations, List.mem_cons, List.mem_singleton] at h
  rcases h with h | h | h
  · subst h; constructor <;> norm_num
  · subst h; constructor <;> norm_num
  · cases h

/-- Claim C10 witness: the first mock recommendation instantiates the
bound. -/
theorem recommendation_confidence_in_unit_interval_witness :
    0 ≤ (Recommendation.mk "1" "1"
      "Based on your interest in philosophical fiction, this book explores themes of choice and regret."
      (92 / 100)).confidence ∧
    (Recommendation.mk "1" "1"
      "Based on your interest in philosophical fiction, this book explores themes of choice and regret."
      (92 / 100)).confidence ≤ 1 :=
  recommendation_confidence_in_unit_interval 0 _ (List.mem_cons_self _ _)

/-- Claim C5 counterexample: two `getReviews` invocations differing only in
the `bookId` argument resolve with different payloads, so the mock results
are not independent of the inputs. -/
theorem getReviews_payload_depends_on_input :
    getReviews 0 "1" ≠ getReviews 0 "2" := by
  simp [getReviews]

/-- Claim C5 as amended: `getRecommendations` resolves identically across
invocations whatever the resolution times; `getReviews` resolves
identically for equal `bookId` arguments whatever the resolution times
(its payload echoes `bookId` but never the clock); `createReview` echoes
its input rather than a fixed payload. -/
theorem mock_payloads_fixed_up_to_inputs (t1 t2 : Nat) (bookId : String)
    (nowIso : String) (review : ReviewInput) :
    getRecommendations t1 = getRecommendations t2 ∧
    getReviews t1 bookId = getReviews t2 bookId ∧
    (createReview t1 nowIso review).bookId = review.bookId ∧
    (createReview t1 nowIso review).comment = review.comment :=
  ⟨rfl, rfl, rfl, rfl⟩

/-- Claim C4: whenever the email fails the required check, the email fails
the format check, or the code fails the required check, `validate` records
the corresponding field error and `handleConfirm` returns without calling
the identity provider; the `confirmSignUp` call happens exactly when both
fields pass. -/
theorem validate_gates_confirm (vReq vEmail : String → Bool)
    (email code : String) :
    (vReq email = false →
      (validate vReq vEmail email code).1.email = some "Email is required" ∧
      (handleConfirm vReq vEmail email code).2 = none) ∧
    (vEmail email = false →
      ((validate vReq vEmail email code).1.email).isSome = true ∧
      (handleConfirm vReq vEmail email code).2 = none) ∧
    (vReq code = false →
      (validate vReq vEmail email code).1.code =
        some "Verification code is required" ∧
      (handleConfirm vReq vEmail email code).2 = none) ∧
    ((handleConfirm vReq vEmail email code).2 ≠ none ↔
      (vReq email && vEmail email && vReq code) = true) := by
  cases h1 : vReq email <;> cases h2 : vEmail email <;>
    cases h3 : vReq code <;>
    simp [validate, handleConfirm, h1, h2, h3]

/-- Claim C4 witness: with the spec-modelled validators, an empty email and
an empty code, `validate` records the email error and no confirmation call
happens. -/
theorem validate_gates_confirm_witness :
    (validate validateRequired validateEmail "" "").1.email =
      some "Email is required" ∧
    (handleConfirm validateRequired validateEmail "" "").2 = none :=
  (validate_gates_confirm validateRequired validateEmail "" "").1 rfl

/-- Claim C3 counterexample: with the spec-modelled validators, an empty
email and an empty code, `handleResend` writes an error state holding only
the email error, while `validate` stores an error state that also carries
the code error — the resulting error states differ, so the resend action
does not record the same error state as the confirmation submit. -/
theorem handleResend_drops_code_error :
    (handleResend validateRequired validateEmail "").1 =
      some { email := some "Email is required", code := none } ∧
    (validate validateRequired validateEmail "" "").1 =
      { email := some "Email is required"
        code := some "Verification code is required" } ∧
    (handleResend validateRequired validateEmail "").1 ≠
      some (validate validateRequired validateEmail "" "").1 := by
  refine ⟨rfl, rfl, ?_⟩
  decide

/-- Claim C3 as amended: `handleResend` calls the resend operation exactly
when `validate` would accept the email (both required and well-formed), and
on rejection it writes the very email error `validate` computes — but the
error state it stores carries only that email error, never the code error
`validate` would also record. -/
theorem handleResend_matches_validate_on_email (vReq vEmail : String → Bool)
    (email code : String) :
    (handleResend vReq vEmail email).2 =
      (if (vReq email && vEmail email) = true then some email else none) ∧
    (handleResend vReq vEmail email).1 =
      (if (vReq email && vEmail email) = true then none
       else some { email := (validate vReq vEmail email code).1.email
                   code := none }) ∧
    ((validate vReq vEmail email code).1.email = none ↔
      (vReq email && vEmail email) = true) := by
  cases h1 : vReq email <;> cases h2 : vEmail email <;>
    simp [handleResend, validate, h1, h2]

/-- Claim C1 counterexample: a 200 response whose parsed body carries both
an `Items` array field and a `books` array field makes `getBooks` return
the `Items` array, not the `books` array, so the claim fails for the
`books` envelope shape when `Items` is also present. -/
theorem getBooks_books_field_shadowed_by_Items :
    jlookup [("Items", Json.arr []), ("books", Json.arr [Json.str "b"])]
      "books" = some (Json.arr [Json.str "b"]) ∧
    getBooks ⟨200, Json.obj
        [("Items", Json.arr []), ("books", Json.arr [Json.str "b"])]⟩ =
      .ok (Json.arr []) ∧
    Except.ok (Json.arr []) ≠
      (Except.ok (Json.arr [Json.str "b"]) : Except String Json) := by
  refine ⟨rfl, rfl, ?_⟩
  simp

/-- Claim C1 as amended: on a 2xx response `getBooks` returns a bare array
body as is, returns the `Items` array of an object body carrying one, and
returns the `books` array of an object body carrying one provided no
`Items` key is present (the `Items` probe takes precedence). -/
theorem getBooks_unwraps_envelopes (status : Nat)
    (fields : List (String × Json)) (xs : List Json)
    (hok : respOk status = true) :
    getBooks ⟨status, Json.arr xs⟩ = .ok (Json.arr xs) ∧
    (jlookup fields "Items" = some (Json.arr xs) →
      getBooks ⟨status, Json.obj fields⟩ = .ok (Json.arr xs)) ∧
    (jlookup fields "Items" = none →
      jlookup fields "books" = some (Json.arr xs) →
      getBooks ⟨status, Json.obj fields⟩ = .ok (Json.arr xs)) := by
  refine ⟨by simp [getBooks, hok, getBooksData], ?_, ?_⟩
  · intro h
    simp [getBooks, hok, getBooksData, h]
  · intro h1 h2
    simp [getBooks, hok, getBooksData, h1, h2]

/-- Claim C1 witness: a 200 response with a plain `books` envelope is
unwrapped. -/
theorem getBooks_unwraps_envelopes_witness :
    getBooks ⟨200, Json.obj [("books", Json.arr [Json.null])]⟩ =
      .ok (Json.arr [Json.null]) :=
  (getBooks_unwraps_envelopes 200 [("books", Json.arr [Json.null])]
    [Json.null] rfl).2.2 rfl rfl

/-- Claim C7 counterexample: a 200 response whose parsed body carries both
an `Items` array field and a `readingLists` array field makes
`getReadingLists` return the `Items` array, not the `readingLists` array,
so the unqualified claim fails. -/
theorem getReadingLists_field_shadowed_by_Items :
    jlookup
      [("Items", Json.arr []), ("readingLists", Json.arr [Json.num 7])]
      "readingLists" = some (Json.arr [Json.num 7]) ∧
    getReadingLists ⟨200, Json.obj
        [("Items", Json.arr []),
         ("readingLists", Json.arr [Json.num 7])]⟩ =
      .ok (Json.arr []) ∧
    Except.ok (Json.arr []) ≠
      (Except.ok (Json.arr [Json.num 7]) : Except String Json) := by
  refine ⟨rfl, rfl, ?_⟩
  simp

/-- Claim C7 as amended: on a 2xx response `getReadingLists` accepts a bare
array, an `Items` envelope, and — provided no `Items` key is present — a
`readingLists` envelope, returning the inner array; `readingLists` is thus
a fourth envelope shape accepted at the public interface beyond the bare
array, `Items` and `books` shapes of `getBooks`. -/
theorem getReadingLists_unwraps_readingLists (status : Nat)
    (fields : List (String × Json)) (xs : List Json)
    (hok : respOk status = true) :
    getReadingLists ⟨status, Json.arr xs⟩ = .ok (Json.arr xs) ∧
    (jlookup fields "Items" = some (Json.arr xs) →
      getReadingLists ⟨status, Json.obj fields⟩ = .ok (Json.arr xs)) ∧
    (jlookup fields "Items" = none →
      jlookup fields "readingLists" = some (Json.arr xs) →
      getReadingLists ⟨status, Json.obj fields⟩ = .ok (Json.arr xs)) := by
  refine ⟨by simp [getReadingLists, hok, getReadingListsData], ?_, ?_⟩
  · intro h
    simp [getReadingLists, hok, getReadingListsData, h]
  · intro h1 h2
    simp [getReadingLists, hok, getReadingListsData, h1, h2]

/-- Claim C7 witness: a 200 response with a plain `readingLists` envelope
is unwrapped. -/
theorem getReadingLists_unwraps_readingLists_witness :
    getReadingLists
        ⟨200, Json.obj [("readingLists", Json.arr [Json.num 7])]⟩ =
      .ok (Json.arr [Json.num 7]) :=
  (getReadingLists_unwraps_readingLists 200
    [("readingLists", Json.arr [Json.num 7])] [Json.num 7] rfl).2.2 rfl rfl

/-- Claim C8 counterexample: a 200 response whose parsed body is an object
whose `Items` field holds the number 42 — not an array, so the body
contains none of the recognized array fields — makes `getBooks` return
that unrecognized value rather than the empty list: the dispatch tests key
presence, not that the field holds an array. -/
theorem getBooks_returns_unrecognized_Items_value :
    jlookup [("Items", Json.num 42)] "Items" = some (Json.num 42) ∧
    jlookup [("Items", Json.num 42)] "books" = none ∧
    getBooks ⟨200, Json.obj [("Items", Json.num 42)]⟩ =
      .ok (Json.num 42) ∧
    Except.ok (Json.num 42) ≠
      (Except.ok (Json.arr []) : Except String Json) := by
  refine ⟨rfl, rfl, rfl, ?_⟩
  simp

/-- Claim C8 as amended: on a 2xx response whose parsed body is neither an
array nor an object containing one of the recognized keys at all (`Items`
or `books` for `getBooks`; `Items` or `readingLists` for
`getReadingLists`), both operations resolve with the empty list; when a
recognized key is present, its value is returned even if it is not an
array. -/
theorem get_list_fallback_empty (status : Nat) (data : Json)
    (hok : respOk status = true)
    (harr : ∀ xs : List Json, data ≠ Json.arr xs)
    (hobj : ∀ fields, data = Json.obj fields →
      jlookup fields "Items" = none ∧ jlookup fields "books" = none ∧
      jlookup fields "readingLists" = none) :
    getBooks ⟨status, data⟩ = .ok (Json.arr []) ∧
    getReadingLists ⟨status, data⟩ = .ok (Json.arr []) := by
  cases data with
  | arr xs => exact absurd rfl (harr xs)
  | obj fields =>
    obtain ⟨h1, h2, h3⟩ := hobj fields rfl
    constructor
    · simp [getBooks, hok, getBooksData, h1, h2]
    · simp [getReadingLists, hok, getReadingListsData, h1, h3]
  | null =>
    exact ⟨by simp [getBooks, hok, getBooksData],
      by simp [getReadingLists, hok, getReadingListsData]⟩
  | bool b =>
    exact ⟨by simp [getBooks, hok, getBooksData],
      by simp [getReadingLists, hok, getReadingListsData]⟩
  | num n =>
    exact ⟨by simp [getBooks, hok, getBooksData],
      by simp [getReadingLists, hok, getReadingListsData]⟩
  | str s =>
    exact ⟨by simp [getBooks, hok, getBooksData],
      by simp [getReadingLists, hok, getReadingListsData]⟩

/-- Claim C8 witness: a 200 response whose parsed body is `null` makes both
list operations resolve with the empty list. -/
theorem get_list_fallback_empty_witness :
    getBooks ⟨200, Json.null⟩ = .ok (Json.arr []) ∧
    getReadingLists ⟨200, Json.null⟩ = .ok (Json.arr []) :=
  get_list_fallback_empty 200 Json.null rfl
    (fun _xs h => Json.noConfusion h)
    (fun _fields h => Json.noConfusion h)

/-- Claim C2 counterexample: a 404 response — a non-2xx status — makes
`getBook` resolve with `null` instead of surfacing a thrown error. -/
theorem getBook_resolves_null_on_404 :
    respOk 404 = false ∧
    getBook ⟨404, Json.null⟩ = .ok Json.null :=
  ⟨rfl, rfl⟩

/-- Claim C2 as amended: on every non-2xx response the HTTP-backed
operations `getBooks`, `getReadingLists`, `createReadingList`,
`updateReadingList` and `deleteReadingList` surface the failure as a
generic thrown error, and so does `getBook` for every non-2xx status other
than 404, where it resolves with `null` instead. -/
theorem nonOk_responses_throw (r : HttpResponse)
    (h : respOk r.status = false) :
    getBooks r = .error "Failed to fetch books" ∧
    getReadingLists r = .error "Failed to fetch reading lists" ∧
    createReadingList r = .error "Failed to create reading list" ∧
    updateReadingList r = .error "Failed to update reading list" ∧
    deleteReadingList r = .error "Failed to delete reading list" ∧
    (r.status ≠ 404 → getBook r = .error "Failed to fetch book") := by
  have h204 : r.status ≠ 204 := by
    intro hs
    rw [hs] at h
    exact absurd h (by decide)
  refine ⟨?_, ?_, ?_, ?_, ?_, ?_⟩
  · simp [getBooks, h]
  · simp [getReadingLists, h]
  · simp [createReadingList, h]
  · simp [updateReadingList, h]
  · simp [deleteReadingList, h, h204]
  · intro h404
    simp [getBook, h, h404]

/-- Claim C2 witness: a 500 response makes every HTTP-backed operation
throw its generic error. -/
theorem nonOk_responses_throw_witness :
    getBooks ⟨500, Json.null⟩ = .error "Failed to fetch books" ∧
    getReadingLists ⟨500, Json.null⟩ =
      .error "Failed to fetch reading lists" ∧
    createReadingList ⟨500, Json.null⟩ =
      .error "Failed to create reading list" ∧
    updateReadingList ⟨500, Json.null⟩ =
      .error "Failed to update reading list" ∧
    deleteReadingList ⟨500, Json.null⟩ =
      .error "Failed to delete reading list" ∧
    getBook ⟨500, Json.null⟩ = .error "Failed to fetch book" := by
  have h := nonOk_responses_throw ⟨500, Json.null⟩ rfl
  exact ⟨h.1, h.2.1, h.2.2.1, h.2.2.2.1, h.2.2.2.2.1,
    h.2.2.2.2.2 (by decide)⟩
